import Mathlib

/-!
Shallow embedding of `twitter-video-threads` (src/src/index.ts) for checking
the natural-language specification against the code.

Correspondence with the source:
* `Tweet`, `VideoVariant`, … mirror the `twitter-d` fields the program reads.
* `Ledger` models the global `failedDownloads : Map<string, string>` with the
  JavaScript `Map.set` semantics (update in place, else append).
* `SessionState`/`sessionStep` model one `runFfmpeg` supervisor session
  (index.ts lines 185-246): the checkpoint interval `ffmpegCheckin`, the
  absolute timeout `ffmpegTimeout`, the stderr data listener and the close
  listener, as a state machine consuming typed events.
* `getTweetJson`, `fetchVideo`, `findNextTweet`, `downloadTweet`, `reportExit`
  model the traversal controller; `process.exit` points become terminal
  `RunExit` values, and recursion is made total with a fuel parameter
  (a model artifact: `RunExit.outOfFuel` is never a real termination).
Tweet identifiers are modelled as `Nat` (the code compares them via `BigInt`,
i.e. exact unbounded integers).
-/

/-- One entry of `video_info.variants` (content type and URL). -/
structure VideoVariant where
  content_type : String
  url : String
deriving DecidableEq

/-- The `video_info` object of a media entity; `variants` is optional. -/
structure VideoInfo where
  variants : Option (List VideoVariant)
deriving DecidableEq

/-- One element of `extended_entities.media`; `video_info` is optional. -/
structure MediaEntity where
  video_info : Option VideoInfo
deriving DecidableEq

/-- The `extended_entities` object; the `media` array is optional. -/
structure ExtendedEntities where
  media : Option (List MediaEntity)
deriving DecidableEq

/-- The fields of a fetched tweet that the program reads.  Identifiers are
string-encoded large integers in the source, compared via `BigInt`; they are
modelled as `Nat`. -/
structure Tweet where
  id_str : Nat
  extended_entities : Option ExtendedEntities
  quoted_status_id_str : Option Nat
  in_reply_to_status_id_str : Option Nat
deriving DecidableEq

/-- The failure ledger `failedDownloads : Map<string, string>`, as an
insertion-ordered association list. -/
abbrev Ledger : Type := List (Nat × String)

/-- JavaScript `Map.set`: overwrite in place if the key is present, else
append at the end (insertion order preserved). -/
def ledgerSet (l : Ledger) (k : Nat) (v : String) : Ledger :=
  match l with
  | [] => [(k, v)]
  | (k', v') :: rest => if k' = k then (k, v) :: rest else (k', v') :: ledgerSet rest k v

/-- JavaScript `Map.get`, specialised to the first (hence, under unique keys,
only) entry for a key. -/
def lookupL (l : Ledger) (k : Nat) : Option String :=
  match l with
  | [] => none
  | (k', v) :: rest => if k' = k then some v else lookupL rest k

/-- Number of entries of the ledger carrying a given key. -/
def countKey (l : Ledger) (k : Nat) : Nat :=
  match l with
  | [] => 0
  | (k', _) :: rest => (if k' = k then 1 else 0) + countKey rest k

theorem lookupL_set (l : Ledger) (k : Nat) (v : String) :
    lookupL (ledgerSet l k v) k = some v := by
  induction l with
  | nil => simp [ledgerSet, lookupL]
  | cons hd tl ih =>
    obtain ⟨k', v'⟩ := hd
    by_cases h : k' = k <;> simp [ledgerSet, lookupL, h, ih]

theorem countKey_set (l : Ledger) (k : Nat) (v : String) (h : countKey l k ≤ 1) :
    countKey (ledgerSet l k v) k = 1 := by
  induction l with
  | nil => simp [ledgerSet, countKey]
  | cons hd tl ih =>
    obtain ⟨k', v'⟩ := hd
    by_cases hk : k' = k
    · subst hk
      simp [countKey] at h
      simp [ledgerSet, countKey]
      omega
    · simp only [countKey, if_neg hk] at h
      simp [ledgerSet, countKey, hk, ih (by omega)]

theorem mem_ledgerSet (l : Ledger) (k : Nat) (v : String) :
    (k, v) ∈ ledgerSet l k v := by
  induction l with
  | nil => simp [ledgerSet]
  | cons hd tl ih =>
    obtain ⟨k', v'⟩ := hd
    by_cases h : k' = k <;> simp [ledgerSet, h, ih]

/-- `needle` is a leading segment of `haystack` (character lists). -/
def listStartsWith : List Char → List Char → Bool
  | [], _ => true
  | _ :: _, [] => false
  | a :: as, b :: bs => a == b && listStartsWith as bs

/-- `charsContains haystack needle`: some suffix of `haystack` starts with
`needle`. -/
def charsContains : List Char → List Char → Bool
  | [], pat => pat.isEmpty
  | h :: t, pat => listStartsWith pat (h :: t) || charsContains t pat

/-- JavaScript `String.prototype.includes`. -/
def strContains (s pat : String) : Bool :=
  charsContains s.data pat.data

/-- The interactive prompt text scanned for on stderr (index.ts line 220). -/
def promptText : String := "already exists. Overwrite? [y/N]"

/-- JavaScript `Set.prototype.add` on the `fFmpegOutput` buffer. -/
def setAdd (l : List String) (d : String) : List String :=
  if l.contains d then l else l ++ [d]

/-- Events a `runFfmpeg` supervisor session can receive: a fire of the 30s
checkpoint interval, a fire of the 300s absolute timeout, a chunk of stderr
data, and the process close event with its exit code. -/
inductive SessionEvent where
  | checkpointTick
  | timeoutFired
  | stderrData (d : String)
  | closed (code : Int)
deriving DecidableEq

/-- State of one `runFfmpeg` session: liveness of the two timers, whether the
process was killed, whether the close event was seen, whether the promise was
resolved, the `fFmpegOutput` buffer, and the global failure ledger. -/
structure SessionState where
  intervalActive : Bool
  timeoutPending : Bool
  killed : Bool
  closedSeen : Bool
  resolved : Bool
  buffer : List String
  ledger : Ledger
deriving DecidableEq

/-- Session state right after `spawn`: both timers are live (index.ts lines
195, 203), the buffer is empty, the ambient ledger is whatever the run has
accumulated. -/
def initSession (l : Ledger) : SessionState :=
  ⟨true, true, false, false, false, [], l⟩

/-- The effect of one event on a session for tweet `id`, transcribing the
callbacks of index.ts lines 195-246:
* checkpoint interval (195-202): logs and clears the buffer;
* timeout (203-217): clears the buffer, `clearInterval(ffmpegCheckin)`,
  kills the process, records `"timeout"` in the ledger, resolves; note that
  it cancels only the checkpoint interval, itself having fired;
* stderr data (219-230): if the chunk contains the overwrite prompt, records
  `"already exists"`, kills the process and resolves — cancelling neither
  timer — then adds the chunk to the buffer;
* close (232-245): `clearInterval` and `clearTimeout`, logs by exit code
  (without touching the ledger), resolves.
Events a delivered timer could not produce (cleared timers, a closed process)
leave the state unchanged; `validTrace` below excludes them from schedules. -/
def sessionStep (id : Nat) (s : SessionState) : SessionEvent → SessionState
  | .checkpointTick =>
    if s.intervalActive then { s with buffer := [] } else s
  | .timeoutFired =>
    if s.timeoutPending then
      { s with buffer := [], intervalActive := false, timeoutPending := false,
               killed := true, ledger := ledgerSet s.ledger id "timeout", resolved := true }
    else s
  | .stderrData d =>
    if s.closedSeen then s
    else
      let s1 := if strContains d promptText then
          { s with ledger := ledgerSet s.ledger id "already exists",
                   killed := true, resolved := true }
        else s
      { s1 with buffer := setAdd s1.buffer d }
  | .closed _ =>
    if s.closedSeen then s
    else
      { s with intervalActive := false, timeoutPending := false,
               closedSeen := true, resolved := true }

/-- Whether an event can occur in a given state: a timer fires only while
live, stderr data and the close event only before the process has closed. -/
def deliverable (s : SessionState) : SessionEvent → Bool
  | .checkpointTick => s.intervalActive
  | .timeoutFired => s.timeoutPending
  | .stderrData _ => !s.closedSeen
  | .closed _ => !s.closedSeen

/-- A schedule of events each of which is deliverable when reached. -/
def validTrace (id : Nat) (s : SessionState) : List SessionEvent → Bool
  | [] => true
  | e :: ts => deliverable s e && validTrace id (sessionStep id s e) ts

/-- Run a session over a schedule of events. -/
def runSession (id : Nat) (s : SessionState) : List SessionEvent → SessionState
  | [] => s
  | e :: ts => runSession id (sessionStep id s e) ts

/-- No event at all is deliverable: both timers dead and the process closed. -/
def noneDeliverable (s : SessionState) : Bool :=
  !s.intervalActive && !s.timeoutPending && s.closedSeen

/-- No stderr chunk of the schedule contains the overwrite prompt. -/
def noPromptB : List SessionEvent → Bool
  | [] => true
  | .stderrData d :: ts => !strContains d promptText && noPromptB ts
  | _ :: ts => noPromptB ts

/-- Outcome of the HTTP layer for one tweet id: a 2xx with the tweet JSON, a
non-success status, or a transport failure (the request could not complete). -/
inductive FetchOutcome where
  | ok (t : Tweet)
  | httpError (status : Nat)
  | transportError
deriving DecidableEq

/-- The environment of a run: what each fetch returns, and the schedule of
supervisor events the external ffmpeg process produces for each tweet id. -/
structure World where
  fetch : Nat → FetchOutcome
  ffmpegEvents : Nat → List SessionEvent

/-- The `stop-at` boundary variable `stopAtTweetInt : BigInt | false`
(index.ts line 33): either a `BigInt` or the JavaScript boolean `false`. -/
inductive StopAt where
  | bigintVal (n : Nat)
  | jsFalse
deriving DecidableEq

/-- `handleCommand` line 39: `stopAtTweetInt = argv["stop-at"] ? BigInt(argv["stop-at"]) : false`. -/
def mkStopAt : Option Nat → StopAt
  | some n => StopAt.bigintVal n
  | none => StopAt.jsFalse

/-- The boundary comparison `BigInt(tweetID) <= stopAtTweetInt` (line 63).
When the boundary is the boolean `false`, JavaScript coerces it with
`ToNumeric(false) = 0`, so the comparison still executes against zero. -/
def stopCheck (id : Nat) : StopAt → Bool
  | StopAt.bigintVal n => decide (id ≤ n)
  | StopAt.jsFalse => decide (id ≤ 0)

/-- The run configuration: the stop boundary and the `--limit` option, whose
default is `Infinity` (modelled as `none`: the comparison
`tweetCounter >= Infinity` is never true). -/
structure Config where
  stopAt : StopAt
  limit : Option Nat
deriving DecidableEq

/-- `tweetCounter >= cliArgs.limit` (line 252). -/
def limitHit (cfg : Config) (c : Nat) : Bool :=
  match cfg.limit with
  | some l => decide (l ≤ c)
  | none => false

/-- Mutable run state threaded through the controller: `tweetCounter`, the
`failedDownloads` ledger, and observation traces recording, in order, the ids
for which an HTTP request was issued (`fetched`), the tweets `fetchVideo`
entered (`mediaChecked`), the ids `runFfmpeg` was invoked on (`downloads`),
and the ids at which `tweetCounter` was incremented (`chainEvaluated`,
index.ts line 250 — the increment sits at the top of `findNextTweet`). -/
structure TState where
  counter : Nat
  ledger : Ledger
  fetched : List Nat
  mediaChecked : List Nat
  downloads : List Nat
  chainEvaluated : List Nat
deriving DecidableEq

/-- The state at startup. -/
def initT : TState := ⟨0, [], [], [], [], []⟩

/-- The final report printed by `reportExit` (lines 273-296): the termination
message, `tweetCounter`, the itemized failure listing — rendered only when
non-empty (line 286) — and the failure count of the closing info line. -/
structure Summary where
  message : String
  processed : Nat
  warnOutput : Option (List String)
  failureCount : Nat
deriving DecidableEq

/-- `[...failedDownloads.entries()].map(([tweetID, reason]) => ...)` (line 280). -/
def formatFailures (l : Ledger) : List String :=
  l.map (fun ⟨i, r⟩ => s!"{i} ({r})")

/-- `reportExit` (lines 273-296): reads the ledger and the counter, mutating
neither. -/
def reportExit (msg : String) (st : TState) : Summary :=
  let lines := formatFailures st.ledger
  ⟨msg, st.counter, if 0 < lines.length then some lines else none, lines.length⟩

/-- How a run terminates.  `outOfFuel` is a model artifact standing for a
non-terminating recursion, never a real exit of the program. -/
inductive RunExit where
  | reachedStop
  | limitReached
  | threadStart
  | fetchHttpFailure
  | uncaughtError
  | outOfFuel
deriving DecidableEq

/-- The process exit status of each termination (`process.exit` arguments). -/
def exitCode : RunExit → Nat
  | RunExit.reachedStop => 0
  | RunExit.limitReached => 0
  | RunExit.threadStart => 0
  | RunExit.fetchHttpFailure => 1
  | RunExit.uncaughtError => 1
  | RunExit.outOfFuel => 0

/-- Result of `getTweetJson`: the tweet, or a process exit. -/
inductive FetchStep where
  | ok (t : Tweet)
  | exited (e : RunExit) (sm : Option Summary)
deriving DecidableEq

/-- `getTweetJson` (lines 92-122).  On a non-ok status the client itself
records `Download failed with a <status> error.` in the ledger (lines
102-105) and throws; the catch handler then prints `reportExit` and calls
`process.exit(1)` (lines 109-121).  On a transport failure the catch handler
evaluates `error.response.text()` on an error without a `response` field,
throwing a TypeError that propagates to `downloadTweet`'s generic catch:
`process.exit(1)` with no report. -/
def getTweetJson (w : World) (id : Nat) (st : TState) : FetchStep × TState :=
  let st0 := { st with fetched := st.fetched ++ [id] }
  match w.fetch id with
  | FetchOutcome.ok t => (FetchStep.ok t, st0)
  | FetchOutcome.httpError code =>
    let st1 := { st0 with
      ledger := ledgerSet st0.ledger id (s!"Download failed with a {code} error.") }
    (FetchStep.exited RunExit.fetchHttpFailure
      (some (reportExit "Nothing left to download, exiting cleanly." st1)), st1)
  | FetchOutcome.transportError => (FetchStep.exited RunExit.uncaughtError none, st0)

/-- The optional-chaining expression of lines 152-156:
`tweet.extended_entities.media?.[0].video_info?.variants?.filter(v => v.content_type === "application/x-mpegURL")`.
`undefined` anywhere along the chain yields `none`; otherwise the filtered
array is returned — which may be empty, and an empty array is *truthy* in
JavaScript. -/
def selectVideoInfo (ee : ExtendedEntities) : Option (List VideoVariant) :=
  match ee.media with
  | none => none
  | some media =>
    match media.head? with
    | none => none
    | some m =>
      match m.video_info with
      | none => none
      | some vi =>
        match vi.variants with
        | none => none
        | some vs =>
          some (vs.filter (fun v => v.content_type == "application/x-mpegURL"))

/-- `runFfmpeg` (lines 169-247) at the traversal level: the session runs over
the events the world schedules for this id, its final ledger becomes the
run's ledger, and the invocation is recorded; the promise resolves with the
tweet regardless of how the session settled. -/
def runFfmpeg (w : World) (id : Nat) (st : TState) : TState :=
  let final := runSession id (initSession st.ledger) (w.ffmpegEvents id)
  { st with ledger := final.ledger, downloads := st.downloads ++ [id] }

/-- Result of `fetchVideo`: the (outer) tweet, or a process exit. -/
inductive VideoStep where
  | done (t : Tweet)
  | exited (e : RunExit) (sm : Option Summary)
deriving DecidableEq

/-- `fetchVideo` (lines 124-167).  A tweet without `extended_entities` whose
`quoted_status_id_str` is set triggers `await getTweetJson(q).then(fetchVideo)`
— a recursive call with no depth bound (the fuel only totalises the model).
Otherwise the variant filter runs; `if (!videoInfo)` catches only `undefined`
(an empty array is truthy), and on an empty filtered array the evaluation of
`videoInfo[0].url` throws a TypeError that reaches `downloadTweet`'s generic
catch: exit 1, no report. -/
def fetchVideo (w : World) (fuel : Nat) (t : Tweet) (st : TState) : VideoStep × TState :=
  let st0 := { st with mediaChecked := st.mediaChecked ++ [t.id_str] }
  match t.extended_entities with
  | none =>
    match t.quoted_status_id_str with
    | none => (VideoStep.done t, st0)
    | some q =>
      match fuel with
      | 0 => (VideoStep.exited RunExit.outOfFuel none, st0)
      | Nat.succ fuel' =>
        match getTweetJson w q st0 with
        | (FetchStep.exited e sm, st1) => (VideoStep.exited e sm, st1)
        | (FetchStep.ok qt, st1) =>
          match fetchVideo w fuel' qt st1 with
          | (VideoStep.exited e sm, st2) => (VideoStep.exited e sm, st2)
          | (VideoStep.done _, st2) => (VideoStep.done t, st2)
  | some ee =>
    match selectVideoInfo ee with
    | none => (VideoStep.done t, st0)
    | some vs =>
      match vs.head? with
      | none => (VideoStep.exited RunExit.uncaughtError none, st0)
      | some _ => (VideoStep.done t, runFfmpeg w t.id_str st0)

/-- Result of `findNextTweet`: the next id of the chain, or a process exit. -/
inductive NextStep where
  | next (id : Nat)
  | exited (e : RunExit) (sm : Option Summary)
deriving DecidableEq

/-- `findNextTweet` (lines 249-271): increment `tweetCounter`, exit at the
limit, else follow `in_reply_to_status_id_str` or exit at the thread start. -/
def findNextTweet (cfg : Config) (t : Tweet) (st : TState) : NextStep × TState :=
  let st1 := { st with counter := st.counter + 1,
                       chainEvaluated := st.chainEvaluated ++ [t.id_str] }
  if limitHit cfg st1.counter then
    (NextStep.exited RunExit.limitReached
      (some (reportExit "Reached the limit of tweets to process" st1)), st1)
  else
    match t.in_reply_to_status_id_str with
    | some p => (NextStep.next p, st1)
    | none =>
      (NextStep.exited RunExit.threadStart
        (some (reportExit "Reached the beginning of the thread." st1)), st1)

/-- A finished run: how it exited, the final state, and the report printed on
the way out (if any). -/
structure RunResult where
  exit : RunExit
  st : TState
  summary : Option Summary
deriving DecidableEq

/-- `downloadTweet` (lines 60-81): the boundary check before any fetch, then
`getTweetJson → fetchVideo → (catch: exit 1) → findNextTweet → downloadTweet`. -/
def downloadTweet (w : World) (cfg : Config) (fuel id : Nat) (st : TState) : RunResult :=
  match fuel with
  | 0 => ⟨RunExit.outOfFuel, st, none⟩
  | Nat.succ fuel' =>
    if stopCheck id cfg.stopAt then
      ⟨RunExit.reachedStop, st, some (reportExit "Reached or passed the requested id." st)⟩
    else
      match getTweetJson w id st with
      | (FetchStep.exited e sm, st1) => ⟨e, st1, sm⟩
      | (FetchStep.ok t, st1) =>
        match fetchVideo w fuel' t st1 with
        | (VideoStep.exited e sm, st2) => ⟨e, st2, sm⟩
        | (VideoStep.done t2, st2) =>
          match findNextTweet cfg t2 st2 with
          | (NextStep.exited e sm, st3) => ⟨e, st3, sm⟩
          | (NextStep.next p, st3) => downloadTweet w cfg fuel' p st3

/-- A tweet with no attached media. -/
def tweetNoMedia (id : Nat) (q r : Option Nat) : Tweet := ⟨id, none, q, r⟩

/-- A tweet whose single media item carries the given variants. -/
def tweetWithVariants (id : Nat) (vs : List VideoVariant) (r : Option Nat) : Tweet :=
  ⟨id, some ⟨some [⟨some ⟨some vs⟩⟩]⟩, none, r⟩

/-- The adaptive-streaming manifest variant. -/
def manifestVariant : VideoVariant := ⟨"application/x-mpegURL", "https://video.example/playlist.m3u8"⟩

/-- A progressive mp4 variant (not a manifest). -/
def mp4Variant : VideoVariant := ⟨"video/mp4", "https://video.example/file.mp4"⟩

/-- Configuration with a `stop-at` of 200 and no limit. -/
def cfgStop200 : Config := ⟨StopAt.bigintVal 200, none⟩

/-- Configuration with no `stop-at` (the boolean false) and no limit. -/
def cfgFree : Config := ⟨StopAt.jsFalse, none⟩

/-- Thread A(300) ← B(200) ← C(100): A replies to B, B replies to C; no media anywhere. -/
def worldChain : World :=
  ⟨fun id =>
    if id = 300 then FetchOutcome.ok (tweetNoMedia 300 none (some 200))
    else if id = 200 then FetchOutcome.ok (tweetNoMedia 200 none (some 100))
    else if id = 100 then FetchOutcome.ok (tweetNoMedia 100 none none)
    else FetchOutcome.transportError,
   fun _ => []⟩

/-- Post 900 has no media and quotes 800; 800 has no media and no quote. -/
def worldQuoted : World :=
  ⟨fun id =>
    if id = 900 then FetchOutcome.ok (tweetNoMedia 900 (some 800) none)
    else if id = 800 then FetchOutcome.ok (tweetNoMedia 800 none none)
    else FetchOutcome.transportError,
   fun _ => []⟩

/-- Quote chain 100 → 50 → 25: each of 100 and 50 has no media and quotes the
next; 25 has no media and quotes nothing.  25 is the quoted-of-quoted post. -/
def worldQuoteChain : World :=
  ⟨fun id =>
    if id = 100 then FetchOutcome.ok (tweetNoMedia 100 (some 50) none)
    else if id = 50 then FetchOutcome.ok (tweetNoMedia 50 (some 25) none)
    else if id = 25 then FetchOutcome.ok (tweetNoMedia 25 none none)
    else FetchOutcome.transportError,
   fun _ => []⟩

/-- Post 77 whose only variant is a progressive mp4 (no manifest). -/
def worldMp4 : World :=
  ⟨fun id =>
    if id = 77 then FetchOutcome.ok (tweetWithVariants 77 [mp4Variant] none)
    else FetchOutcome.transportError,
   fun _ => []⟩

/-- Post 500 has a manifest video whose download closes with exit code 1;
500 replies to 400, which has no media and no parent. -/
def worldExit1 : World :=
  ⟨fun id =>
    if id = 500 then FetchOutcome.ok (tweetWithVariants 500 [manifestVariant] (some 400))
    else if id = 400 then FetchOutcome.ok (tweetNoMedia 400 none none)
    else FetchOutcome.transportError,
   fun id => if id = 500 then [SessionEvent.closed 1] else []⟩

/-- Every fetch returns HTTP 404. -/
def worldHttp404 : World := ⟨fun _ => FetchOutcome.httpError 404, fun _ => []⟩

/-- Every fetch fails at the transport layer. -/
def worldTransport : World := ⟨fun _ => FetchOutcome.transportError, fun _ => []⟩

theorem noPromptB_cons (e : SessionEvent) (ts : List SessionEvent)
    (h : noPromptB (e :: ts) = true) :
    noPromptB ts = true ∧ (∀ d, e = SessionEvent.stderrData d → strContains d promptText = false) := by
  cases e with
  | stderrData d =>
    simp only [noPromptB, Bool.and_eq_true] at h
    exact ⟨h.2, fun d' hd' => by cases hd'; simpa using h.1⟩
  | checkpointTick => exact ⟨h, fun d hd => by cases hd⟩
  | timeoutFired => exact ⟨h, fun d hd => by cases hd⟩
  | closed c => exact ⟨h, fun d hd => by cases hd⟩

theorem sessionStep_frozen (id : Nat) (s : SessionState) (e : SessionEvent)
    (hp : s.timeoutPending = false)
    (hd : ∀ d, e = SessionEvent.stderrData d → strContains d promptText = false) :
    (sessionStep id s e).ledger = s.ledger ∧ (sessionStep id s e).killed = s.killed ∧
    (sessionStep id s e).timeoutPending = false := by
  cases e with
  | checkpointTick => by_cases h : s.intervalActive <;> simp [sessionStep, h, hp]
  | timeoutFired => simp [sessionStep, hp]
  | stderrData d =>
    have hc := hd d rfl
    by_cases h : s.closedSeen <;> simp [sessionStep, h, hc, hp]
  | closed c => by_cases h : s.closedSeen <;> simp [sessionStep, h, hp]

theorem runSession_frozen (id : Nat) : ∀ (ts : List SessionEvent) (s : SessionState),
    noPromptB ts = true → s.timeoutPending = false →
    (runSession id s ts).ledger = s.ledger ∧ (runSession id s ts).killed = s.killed ∧
    (runSession id s ts).timeoutPending = false := by
  intro ts
  induction ts with
  | nil => intro s _ hp; exact ⟨rfl, rfl, hp⟩
  | cons e ts ih =>
    intro s hnp hp
    obtain ⟨hts, hde⟩ := noPromptB_cons e ts hnp
    obtain ⟨l1, k1, p1⟩ := sessionStep_frozen id s e hp hde
    obtain ⟨l2, k2, p2⟩ := ih (sessionStep id s e) hts p1
    refine ⟨?_, ?_, ?_⟩
    · show (runSession id (sessionStep id s e) ts).ledger = s.ledger
      rw [l2, l1]
    · show (runSession id (sessionStep id s e) ts).killed = s.killed
      rw [k2, k1]
    · exact p2

theorem sessionStep_ledger_nontimeout (id : Nat) (s : SessionState) (e : SessionEvent)
    (hne : e ≠ SessionEvent.timeoutFired)
    (hd : ∀ d, e = SessionEvent.stderrData d → strContains d promptText = false) :
    (sessionStep id s e).ledger = s.ledger := by
  cases e with
  | checkpointTick => by_cases h : s.intervalActive <;> simp [sessionStep, h]
  | timeoutFired => exact absurd rfl hne
  | stderrData d =>
    have hc := hd d rfl
    by_cases h : s.closedSeen <;> simp [sessionStep, h, hc]
  | closed c => by_cases h : s.closedSeen <;> simp [sessionStep, h]

theorem timeout_settles (id : Nat) : ∀ (ts : List SessionEvent) (s : SessionState),
    validTrace id s ts = true → SessionEvent.timeoutFired ∈ ts → noPromptB ts = true →
    countKey s.ledger id ≤ 1 →
    lookupL (runSession id s ts).ledger id = some "timeout" ∧
    countKey (runSession id s ts).ledger id = 1 ∧
    (runSession id s ts).killed = true := by
  intro ts
  induction ts with
  | nil => intro s _ hm; simp at hm
  | cons e ts ih =>
    intro s hv hm hnp hck
    simp only [validTrace, Bool.and_eq_true] at hv
    obtain ⟨hdel, hrest⟩ := hv
    obtain ⟨hnpts, hde⟩ := noPromptB_cons e ts hnp
    by_cases he : e = SessionEvent.timeoutFired
    · subst he
      have hpend : s.timeoutPending = true := by simpa [deliverable] using hdel
      have hstep : sessionStep id s SessionEvent.timeoutFired =
          { s with buffer := [], intervalActive := false, timeoutPending := false,
                   killed := true, ledger := ledgerSet s.ledger id "timeout",
                   resolved := true } := by
        simp [sessionStep, hpend]
      obtain ⟨l2, k2, _⟩ :=
        runSession_frozen id ts (sessionStep id s SessionEvent.timeoutFired) hnpts
          (by rw [hstep])
      refine ⟨?_, ?_, ?_⟩
      · show lookupL (runSession id (sessionStep id s SessionEvent.timeoutFired) ts).ledger id
          = some "timeout"
        rw [l2, hstep]
        exact lookupL_set s.ledger id "timeout"
      · show countKey (runSession id (sessionStep id s SessionEvent.timeoutFired) ts).ledger id = 1
        rw [l2, hstep]
        exact countKey_set s.ledger id "timeout" hck
      · show (runSession id (sessionStep id s SessionEvent.timeoutFired) ts).killed = true
        rw [k2, hstep]
    · have hm' : SessionEvent.timeoutFired ∈ ts := by
        rcases List.mem_cons.mp hm with h | h
        · exact absurd h.symm he
        · exact h
      have hled := sessionStep_ledger_nontimeout id s e he hde
      exact ih (sessionStep id s e) hrest hm' hnpts (by rw [hled]; exact hck)

theorem getTweetJson_counter (w : World) (id : Nat) (st : TState) :
    (getTweetJson w id st).2.counter = st.counter ∧
    (getTweetJson w id st).2.chainEvaluated = st.chainEvaluated := by
  cases h : w.fetch id <;> simp [getTweetJson, h]

theorem getTweetJson_fetched (w : World) (id : Nat) (st : TState) :
    (getTweetJson w id st).2.fetched = st.fetched ++ [id] := by
  cases h : w.fetch id <;> simp [getTweetJson, h]

theorem runFfmpeg_frame (w : World) (id : Nat) (st : TState) :
    (runFfmpeg w id st).counter = st.counter ∧
    (runFfmpeg w id st).chainEvaluated = st.chainEvaluated ∧
    (runFfmpeg w id st).fetched = st.fetched := by
  simp [runFfmpeg]

theorem fetchVideo_counter (w : World) : ∀ (fuel : Nat) (t : Tweet) (st : TState),
    (fetchVideo w fuel t st).2.counter = st.counter ∧
    (fetchVideo w fuel t st).2.chainEvaluated = st.chainEvaluated := by
  intro fuel
  induction fuel with
  | zero =>
    intro t st
    cases hee : t.extended_entities with
    | none => cases hq : t.quoted_status_id_str <;> simp [fetchVideo, hee, hq]
    | some ee =>
      cases hsel : selectVideoInfo ee with
      | none => simp [fetchVideo, hee, hsel]
      | some vs => cases hh : vs.head? <;> simp [fetchVideo, hee, hsel, hh, runFfmpeg]
  | succ fuel' ih =>
    intro t st
    cases hee : t.extended_entities with
    | some ee =>
      cases hsel : selectVideoInfo ee with
      | none => simp [fetchVideo, hee, hsel]
      | some vs => cases hh : vs.head? <;> simp [fetchVideo, hee, hsel, hh, runFfmpeg]
    | none =>
      cases hq : t.quoted_status_id_str with
      | none => simp [fetchVideo, hee, hq]
      | some q =>
        obtain ⟨hc1, hch1⟩ :=
          getTweetJson_counter w q { st with mediaChecked := st.mediaChecked ++ [t.id_str] }
        rcases hg : getTweetJson w q { st with mediaChecked := st.mediaChecked ++ [t.id_str] }
          with ⟨fs, st1⟩
        rw [hg] at hc1 hch1
        cases fs with
        | exited e sm =>
          simpa [fetchVideo, hee, hq, hg] using ⟨hc1, hch1⟩
        | ok qt =>
          obtain ⟨hc2, hch2⟩ := ih qt st1
          rcases hf : fetchVideo w fuel' qt st1 with ⟨vs2, st2⟩
          rw [hf] at hc2 hch2
          cases vs2 <;>
            simpa [fetchVideo, hee, hq, hg, hf] using ⟨hc2.trans hc1, hch2.trans hch1⟩

theorem fetchVideo_fetched (w : World) : ∀ (fuel : Nat) (t : Tweet) (st : TState),
    ∃ l, (fetchVideo w fuel t st).2.fetched = st.fetched ++ l := by
  intro fuel
  induction fuel with
  | zero =>
    intro t st
    cases hee : t.extended_entities with
    | none =>
      cases hq : t.quoted_status_id_str <;> exact ⟨[], by simp [fetchVideo, hee, hq]⟩
    | some ee =>
      cases hsel : selectVideoInfo ee with
      | none => exact ⟨[], by simp [fetchVideo, hee, hsel]⟩
      | some vs =>
        cases hh : vs.head? <;> exact ⟨[], by simp [fetchVideo, hee, hsel, hh, runFfmpeg]⟩
  | succ fuel' ih =>
    intro t st
    cases hee : t.extended_entities with
    | some ee =>
      cases hsel : selectVideoInfo ee with
      | none => exact ⟨[], by simp [fetchVideo, hee, hsel]⟩
      | some vs =>
        cases hh : vs.head? <;> exact ⟨[], by simp [fetchVideo, hee, hsel, hh, runFfmpeg]⟩
    | none =>
      cases hq : t.quoted_status_id_str with
      | none => exact ⟨[], by simp [fetchVideo, hee, hq]⟩
      | some q =>
        have hf1 :=
          getTweetJson_fetched w q { st with mediaChecked := st.mediaChecked ++ [t.id_str] }
        rcases hg : getTweetJson w q { st with mediaChecked := st.mediaChecked ++ [t.id_str] }
          with ⟨fs, st1⟩
        rw [hg] at hf1
        cases fs with
        | exited e sm => exact ⟨[q], by simpa [fetchVideo, hee, hq, hg] using hf1⟩
        | ok qt =>
          obtain ⟨l2, hl2⟩ := ih qt st1
          rcases hf : fetchVideo w fuel' qt st1 with ⟨vs2, st2⟩
          rw [hf] at hl2
          refine ⟨[q] ++ l2, ?_⟩
          simp at hf1 hl2
          cases vs2 <;> (simp [fetchVideo, hee, hq, hg, hf]; rw [hl2, hf1]; simp)

theorem findNextTweet_counter (cfg : Config) (t : Tweet) (st : TState) :
    (findNextTweet cfg t st).2.counter = st.counter + 1 ∧
    (findNextTweet cfg t st).2.chainEvaluated = st.chainEvaluated ++ [t.id_str] ∧
    (findNextTweet cfg t st).2.fetched = st.fetched := by
  by_cases hl : limitHit cfg (st.counter + 1) <;>
    cases hr : t.in_reply_to_status_id_str <;> simp [findNextTweet, hl, hr]

theorem downloadTweet_counter (w : World) (cfg : Config) : ∀ (fuel id : Nat) (st : TState),
    (downloadTweet w cfg fuel id st).st.counter + st.chainEvaluated.length
      = st.counter + (downloadTweet w cfg fuel id st).st.chainEvaluated.length := by
  intro fuel
  induction fuel with
  | zero => intro id st; simp [downloadTweet]
  | succ fuel' ih =>
    intro id st
    by_cases hstop : stopCheck id cfg.stopAt
    · simp [downloadTweet, hstop]
    · obtain ⟨hc1, hch1⟩ := getTweetJson_counter w id st
      rcases hg : getTweetJson w id st with ⟨fs, st1⟩
      rw [hg] at hc1 hch1
      simp only at hc1 hch1
      cases fs with
      | exited e sm => simp [downloadTweet, hstop, hg, hc1, hch1]
      | ok t =>
        obtain ⟨hc2, hch2⟩ := fetchVideo_counter w fuel' t st1
        rcases hf : fetchVideo w fuel' t st1 with ⟨v, st2⟩
        rw [hf] at hc2 hch2
        simp only at hc2 hch2
        cases v with
        | exited e sm =>
          simp [downloadTweet, hstop, hg, hf, hc2.trans hc1, hch2.trans hch1]
        | done t2 =>
          obtain ⟨hc3, hch3, _⟩ := findNextTweet_counter cfg t2 st2
          rcases hn : findNextTweet cfg t2 st2 with ⟨ns, st3⟩
          rw [hn] at hc3 hch3
          simp only at hc3 hch3
          have e3 : st3.chainEvaluated.length = st.chainEvaluated.length + 1 := by
            rw [hch3, hch2.trans hch1]
            simp
          have e4 : st3.counter = st.counter + 1 := by
            rw [hc3, hc2.trans hc1]
          cases ns with
          | exited e sm =>
            simp [downloadTweet, hstop, hg, hf, hn]
            omega
          | next p =>
            have ih' := ih p st3
            simp [downloadTweet, hstop, hg, hf, hn]
            omega

theorem downloadTweet_fetched (w : World) (cfg : Config) : ∀ (fuel id : Nat) (st : TState),
    ∃ l, (downloadTweet w cfg fuel id st).st.fetched = st.fetched ++ l := by
  intro fuel
  induction fuel with
  | zero => intro id st; exact ⟨[], by simp [downloadTweet]⟩
  | succ fuel' ih =>
    intro id st
    by_cases hstop : stopCheck id cfg.stopAt
    · exact ⟨[], by simp [downloadTweet, hstop]⟩
    · have hf1 := getTweetJson_fetched w id st
      rcases hg : getTweetJson w id st with ⟨fs, st1⟩
      rw [hg] at hf1
      simp only at hf1
      cases fs with
      | exited e sm => exact ⟨[id], by simp [downloadTweet, hstop, hg, hf1]⟩
      | ok t =>
        obtain ⟨l2, hl2⟩ := fetchVideo_fetched w fuel' t st1
        rcases hfv : fetchVideo w fuel' t st1 with ⟨v, st2⟩
        rw [hfv] at hl2
        simp only at hl2
        cases v with
        | exited e sm =>
          refine ⟨[id] ++ l2, ?_⟩
          simp [downloadTweet, hstop, hg, hfv]
          rw [hl2, hf1]
          simp
        | done t2 =>
          obtain ⟨_, _, hfn⟩ := findNextTweet_counter cfg t2 st2
          rcases hn : findNextTweet cfg t2 st2 with ⟨ns, st3⟩
          rw [hn] at hfn
          simp only at hfn
          cases ns with
          | exited e sm =>
            refine ⟨[id] ++ l2, ?_⟩
            simp [downloadTweet, hstop, hg, hfv, hn]
            rw [hfn, hl2, hf1]
            simp
          | next p =>
            obtain ⟨l4, hl4⟩ := ih p st3
            refine ⟨[id] ++ l2 ++ l4, ?_⟩
            simp only [downloadTweet, if_neg hstop, hg, hfv, hn]
            rw [hl4, hfn, hl2, hf1]
            simp

/-- Terminations that go through `reportExit`: the three clean exits and the
HTTP fetch failure.  The generic catch of `downloadTweet` (transport errors,
unexpected exceptions) and the fuel artifact are excluded. -/
def cleanOrHttp : RunExit → Bool
  | RunExit.reachedStop => true
  | RunExit.limitReached => true
  | RunExit.threadStart => true
  | RunExit.fetchHttpFailure => true
  | RunExit.uncaughtError => false
  | RunExit.outOfFuel => false

theorem getTweetJson_report (w : World) (id : Nat) (st : TState) :
    ∀ e sm st1, getTweetJson w id st = (FetchStep.exited e sm, st1) →
      (cleanOrHttp e = true → ∃ m, sm = some (reportExit m st1)) ∧
      (e = RunExit.uncaughtError → sm = none) := by
  intro e sm st1 h
  cases hw : w.fetch id with
  | ok t => simp [getTweetJson, hw] at h
  | httpError code =>
    simp [getTweetJson, hw] at h
    obtain ⟨⟨he, hsm⟩, hst⟩ := h
    subst he
    refine ⟨fun _ => ⟨"Nothing left to download, exiting cleanly.", ?_⟩, fun hc => by cases hc⟩
    rw [← hsm, hst]
  | transportError =>
    simp [getTweetJson, hw] at h
    obtain ⟨⟨he, hsm⟩, hst⟩ := h
    subst he
    exact ⟨fun hc => by simp [cleanOrHttp] at hc, fun _ => hsm.symm⟩

theorem fetchVideo_report (w : World) : ∀ (fuel : Nat) (t : Tweet) (st : TState),
    ∀ e sm st2, fetchVideo w fuel t st = (VideoStep.exited e sm, st2) →
      (cleanOrHttp e = true → ∃ m, sm = some (reportExit m st2)) ∧
      (e = RunExit.uncaughtError → sm = none) := by
  intro fuel
  induction fuel with
  | zero =>
    intro t st e sm st2 h
    cases hee : t.extended_entities with
    | none =>
      cases hq : t.quoted_status_id_str with
      | none => simp [fetchVideo, hee, hq] at h
      | some q =>
        simp [fetchVideo, hee, hq] at h
        obtain ⟨⟨he, hsm⟩, _⟩ := h
        subst he
        exact ⟨fun hc => by simp [cleanOrHttp] at hc, fun hc => by cases hc⟩
    | some ee =>
      cases hsel : selectVideoInfo ee with
      | none => simp [fetchVideo, hee, hsel] at h
      | some vs =>
        cases hh : vs.head? with
        | some v => simp [fetchVideo, hee, hsel, hh] at h
        | none =>
          simp [fetchVideo, hee, hsel, hh] at h
          obtain ⟨⟨he, hsm⟩, _⟩ := h
          subst he
          exact ⟨fun hc => by simp [cleanOrHttp] at hc, fun _ => hsm.symm⟩
  | succ fuel' ih =>
    intro t st e sm st2 h
    cases hee : t.extended_entities with
    | some ee =>
      cases hsel : selectVideoInfo ee with
      | none => simp [fetchVideo, hee, hsel] at h
      | some vs =>
        cases hh : vs.head? with
        | some v => simp [fetchVideo, hee, hsel, hh] at h
        | none =>
          simp [fetchVideo, hee, hsel, hh] at h
          obtain ⟨⟨he, hsm⟩, _⟩ := h
          subst he
          exact ⟨fun hc => by simp [cleanOrHttp] at hc, fun _ => hsm.symm⟩
    | none =>
      cases hq : t.quoted_status_id_str with
      | none => simp [fetchVideo, hee, hq] at h
      | some q =>
        rcases hg : getTweetJson w q { st with mediaChecked := st.mediaChecked ++ [t.id_str] }
          with ⟨fs, st1⟩
        cases fs with
        | exited e1 sm1 =>
          have hrep := getTweetJson_report w q
            { st with mediaChecked := st.mediaChecked ++ [t.id_str] } e1 sm1 st1 hg
          simp [fetchVideo, hee, hq, hg] at h
          obtain ⟨⟨he, hsm⟩, hst⟩ := h
          subst he
          rw [← hsm, ← hst]
          exact hrep
        | ok qt =>
          rcases hf : fetchVideo w fuel' qt st1 with ⟨v2, st2'⟩
          cases v2 with
          | done t3 => simp [fetchVideo, hee, hq, hg, hf] at h
          | exited e2 sm2 =>
            have hrep := ih qt st1 e2 sm2 st2' hf
            simp [fetchVideo, hee, hq, hg, hf] at h
            obtain ⟨⟨he, hsm⟩, hst⟩ := h
            subst he
            rw [← hsm, ← hst]
            exact hrep

theorem findNextTweet_report (cfg : Config) (t : Tweet) (st : TState) :
    ∀ e sm st3, findNextTweet cfg t st = (NextStep.exited e sm, st3) →
      cleanOrHttp e = true ∧ ∃ m, sm = some (reportExit m st3) := by
  intro e sm st3 h
  by_cases hl : limitHit cfg (st.counter + 1)
  · simp [findNextTweet, hl] at h
    obtain ⟨⟨he, hsm⟩, hst⟩ := h
    subst he
    exact ⟨rfl, ⟨"Reached the limit of tweets to process", by rw [← hsm, hst]⟩⟩
  · cases hr : t.in_reply_to_status_id_str with
    | some p => simp [findNextTweet, hl, hr] at h
    | none =>
      simp [findNextTweet, hl, hr] at h
      obtain ⟨⟨he, hsm⟩, hst⟩ := h
      subst he
      exact ⟨rfl, ⟨"Reached the beginning of the thread.", by rw [← hsm, hst]⟩⟩

theorem downloadTweet_report (w : World) (cfg : Config) : ∀ (fuel id : Nat) (st : TState),
    (cleanOrHttp (downloadTweet w cfg fuel id st).exit = true →
      ∃ m, (downloadTweet w cfg fuel id st).summary
        = some (reportExit m (downloadTweet w cfg fuel id st).st)) ∧
    ((downloadTweet w cfg fuel id st).exit = RunExit.uncaughtError →
      (downloadTweet w cfg fuel id st).summary = none) := by
  intro fuel
  induction fuel with
  | zero =>
    intro id st
    constructor
    · intro hc; simp [downloadTweet, cleanOrHttp] at hc
    · intro hc; simp [downloadTweet] at hc
  | succ fuel' ih =>
    intro id st
    by_cases hstop : stopCheck id cfg.stopAt
    · constructor
      · intro _
        exact ⟨"Reached or passed the requested id.", by simp [downloadTweet, hstop]⟩
      · intro hc; simp [downloadTweet, hstop] at hc
    · rcases hg : getTweetJson w id st with ⟨fs, st1⟩
      cases fs with
      | exited e sm =>
        have hrep := getTweetJson_report w id st e sm st1 hg
        simpa [downloadTweet, hstop, hg] using hrep
      | ok t =>
        rcases hf : fetchVideo w fuel' t st1 with ⟨v, st2⟩
        cases v with
        | exited e sm =>
          have hrep := fetchVideo_report w fuel' t st1 e sm st2 hf
          simpa [downloadTweet, hstop, hg, hf] using hrep
        | done t2 =>
          rcases hn : findNextTweet cfg t2 st2 with ⟨ns, st3⟩
          cases ns with
          | exited e sm =>
            obtain ⟨hce, m, hm⟩ := findNextTweet_report cfg t2 st2 e sm st3 hn
            constructor
            · intro _
              exact ⟨m, by simp [downloadTweet, hstop, hg, hf, hn, hm]⟩
            · intro hc
              simp [downloadTweet, hstop, hg, hf, hn] at hc
              rw [hc] at hce
              simp [cleanOrHttp] at hce
          | next p =>
            have ih' := ih p st3
            simpa [downloadTweet, hstop, hg, hf, hn] using ih'

/-- Claim C1, counterexample.  A valid session schedule in which the process
emits the overwrite prompt before closing, yet the timeout timer — which the
prompt handler (index.ts 219-230) does not cancel — fires afterwards: after
the prompt the promise is already resolved (settled) while both timers are
still pending, the timeout fire is deliverable, and the final ledger reads
`"timeout"`, not `"already exists"`.  This refutes both "prompt detection
cancels the other pending timers" and "no further timer fire is observable
after settlement". -/
theorem c1_counterexample :
    validTrace 5 (initSession [])
      [SessionEvent.stderrData promptText, SessionEvent.timeoutFired,
       SessionEvent.closed 137] = true ∧
    (sessionStep 5 (initSession []) (SessionEvent.stderrData promptText)).resolved = true ∧
    (sessionStep 5 (initSession []) (SessionEvent.stderrData promptText)).timeoutPending = true ∧
    (sessionStep 5 (initSession []) (SessionEvent.stderrData promptText)).intervalActive = true ∧
    (runSession 5 (initSession [])
      [SessionEvent.stderrData promptText, SessionEvent.timeoutFired,
       SessionEvent.closed 137]).ledger = [(5, "timeout")] := by
  decide

/-- Claim C1, amended.  The close event cancels both timers and the timeout
handler cancels the checkpoint interval, but prompt detection cancels neither
timer itself: it records `"already exists"`, kills the process and resolves,
and the timers are cancelled only when the resulting close event arrives.  In
a session where the prompt is detected and the process then closes before
either timer fires, the session settles as `Failed("already exists")` with
both timers cancelled and no further event deliverable. -/
theorem c1_amended : ∀ (id : Nat) (s : SessionState) (d : String) (c : Int),
    s.intervalActive = true → s.timeoutPending = true → s.closedSeen = false →
    strContains d promptText = true →
    validTrace id s [SessionEvent.stderrData d, SessionEvent.closed c] = true ∧
    lookupL (runSession id s [SessionEvent.stderrData d, SessionEvent.closed c]).ledger id
      = some "already exists" ∧
    (runSession id s [SessionEvent.stderrData d, SessionEvent.closed c]).intervalActive = false ∧
    (runSession id s [SessionEvent.stderrData d, SessionEvent.closed c]).timeoutPending = false ∧
    (runSession id s [SessionEvent.stderrData d, SessionEvent.closed c]).killed = true ∧
    (runSession id s [SessionEvent.stderrData d, SessionEvent.closed c]).resolved = true ∧
    noneDeliverable (runSession id s [SessionEvent.stderrData d, SessionEvent.closed c]) = true ∧
    (sessionStep id s SessionEvent.timeoutFired).intervalActive = false ∧
    (sessionStep id s (SessionEvent.closed c)).intervalActive = false ∧
    (sessionStep id s (SessionEvent.closed c)).timeoutPending = false := by
  intro id s d c h1 h2 h3 h4
  refine ⟨?_, ?_, ?_, ?_, ?_, ?_, ?_, ?_, ?_, ?_⟩ <;>
    simp [runSession, sessionStep, validTrace, deliverable, noneDeliverable,
      h1, h2, h3, h4, lookupL_set]

/-- Claim C1, witness for the amended theorem at a concrete session. -/
theorem c1_witness :
    validTrace 5 (initSession []) [SessionEvent.stderrData promptText, SessionEvent.closed 0]
      = true ∧
    lookupL (runSession 5 (initSession [])
      [SessionEvent.stderrData promptText, SessionEvent.closed 0]).ledger 5
      = some "already exists" ∧
    (runSession 5 (initSession [])
      [SessionEvent.stderrData promptText, SessionEvent.closed 0]).intervalActive = false ∧
    (runSession 5 (initSession [])
      [SessionEvent.stderrData promptText, SessionEvent.closed 0]).timeoutPending = false ∧
    (runSession 5 (initSession [])
      [SessionEvent.stderrData promptText, SessionEvent.closed 0]).killed = true ∧
    (runSession 5 (initSession [])
      [SessionEvent.stderrData promptText, SessionEvent.closed 0]).resolved = true ∧
    noneDeliverable (runSession 5 (initSession [])
      [SessionEvent.stderrData promptText, SessionEvent.closed 0]) = true ∧
    (sessionStep 5 (initSession []) SessionEvent.timeoutFired).intervalActive = false ∧
    (sessionStep 5 (initSession []) (SessionEvent.closed 0)).intervalActive = false ∧
    (sessionStep 5 (initSession []) (SessionEvent.closed 0)).timeoutPending = false :=
  c1_amended 5 (initSession []) promptText 0 rfl rfl rfl (by decide)

/-- Claim C6, counterexample.  A session whose process closes with exit code 1
(no prompt, no timeout) settles — the promise resolves, both timers are
cancelled — but the failure ledger stays empty: the close handler (index.ts
232-245) only logs the nonzero code, it records nothing, refuting "recorded in
the Failure Ledger with a distinguishing reason string derived from the exit
code". -/
theorem c6_counterexample :
    validTrace 500 (initSession []) [SessionEvent.closed 1] = true ∧
    (runSession 500 (initSession []) [SessionEvent.closed 1]).ledger = [] ∧
    (runSession 500 (initSession []) [SessionEvent.closed 1]).resolved = true ∧
    (runSession 500 (initSession []) [SessionEvent.closed 1]).closedSeen = true := by
  decide

/-- Claim C6, amended.  A session whose process exits nonzero (without prompt
or timeout) settles with both timers cancelled and is logged as an error, but
no Failure Ledger entry is recorded for it; the traversal nevertheless
continues to the next post rather than aborting — in the concrete world where
post 500's download closes with code 1, the run goes on to fetch 400 and ends
at the thread start with two posts processed and an empty ledger. -/
theorem c6_amended : ∀ (id : Nat) (s : SessionState) (c : Int),
    s.closedSeen = false → c ≠ 0 →
    ((runSession id s [SessionEvent.closed c]).ledger = s.ledger ∧
     (runSession id s [SessionEvent.closed c]).resolved = true ∧
     (runSession id s [SessionEvent.closed c]).intervalActive = false ∧
     (runSession id s [SessionEvent.closed c]).timeoutPending = false) ∧
    ((downloadTweet worldExit1 cfgFree 10 500 initT).exit = RunExit.threadStart ∧
     (downloadTweet worldExit1 cfgFree 10 500 initT).st.counter = 2 ∧
     (downloadTweet worldExit1 cfgFree 10 500 initT).st.downloads = [500] ∧
     (downloadTweet worldExit1 cfgFree 10 500 initT).st.ledger = []) := by
  intro id s c h1 h2
  exact ⟨by simp [runSession, sessionStep, h1], by decide⟩

/-- Claim C6, witness for the amended theorem at a concrete session. -/
theorem c6_witness :
    ((runSession 500 (initSession []) [SessionEvent.closed 1]).ledger = (initSession []).ledger ∧
     (runSession 500 (initSession []) [SessionEvent.closed 1]).resolved = true ∧
     (runSession 500 (initSession []) [SessionEvent.closed 1]).intervalActive = false ∧
     (runSession 500 (initSession []) [SessionEvent.closed 1]).timeoutPending = false) ∧
    ((downloadTweet worldExit1 cfgFree 10 500 initT).exit = RunExit.threadStart ∧
     (downloadTweet worldExit1 cfgFree 10 500 initT).st.counter = 2 ∧
     (downloadTweet worldExit1 cfgFree 10 500 initT).st.downloads = [500] ∧
     (downloadTweet worldExit1 cfgFree 10 500 initT).st.ledger = []) :=
  c6_amended 500 (initSession []) 1 rfl (by decide)

/-- Claim C7.  A supervisor session in which the absolute timeout fires (the
process neither closed nor emitted the overwrite prompt first — any valid
schedule containing a timeout fire and no prompt chunk) kills the process and
settles as `Failed("timeout")`: afterwards the ledger holds exactly one entry
for that post id, with reason `"timeout"`, no matter what further valid
events (the close of the killed process, more data) follow. -/
theorem c7_timeout_settlement : ∀ (id : Nat) (l : Ledger) (ts : List SessionEvent),
    validTrace id (initSession l) ts = true →
    SessionEvent.timeoutFired ∈ ts →
    noPromptB ts = true →
    countKey l id ≤ 1 →
    lookupL (runSession id (initSession l) ts).ledger id = some "timeout" ∧
    countKey (runSession id (initSession l) ts).ledger id = 1 ∧
    (runSession id (initSession l) ts).killed = true := by
  intro id l ts hv hm hnp hck
  exact timeout_settles id ts (initSession l) hv hm hnp hck

/-- Claim C7, witness: the schedule "timeout fires, then the killed process
closes", from an empty ledger. -/
theorem c7_witness :
    lookupL (runSession 9 (initSession [])
      [SessionEvent.timeoutFired, SessionEvent.closed 137]).ledger 9 = some "timeout" ∧
    countKey (runSession 9 (initSession [])
      [SessionEvent.timeoutFired, SessionEvent.closed 137]).ledger 9 = 1 ∧
    (runSession 9 (initSession [])
      [SessionEvent.timeoutFired, SessionEvent.closed 137]).killed = true :=
  c7_timeout_settlement 9 [] [SessionEvent.timeoutFired, SessionEvent.closed 137]
    (by decide) (by decide) (by decide) (by decide)

/-- Claim C2 (code bug), evaluation at the failing input.  Post 77's first
media item has the non-empty variant list `[mp4Variant]` with no
adaptive-streaming manifest.  The filter of index.ts 152-156 yields the empty
array — which is truthy in JavaScript, so the `if (!videoInfo)` guard of line
158 does not take the "no usable media" path; instead `videoInfo[0].url`
(line 166) reads `url` of `undefined`, the TypeError reaches `downloadTweet`'s
generic catch, and the run aborts with exit status 1 and no report.  The
supervisor is indeed never invoked, but not because a sentinel was returned. -/
theorem c2_bug_eval :
    selectVideoInfo ⟨some [⟨some ⟨some [mp4Variant]⟩⟩]⟩ = some [] ∧
    (fetchVideo worldMp4 5 (tweetWithVariants 77 [mp4Variant] none) initT).1
      = VideoStep.exited RunExit.uncaughtError none ∧
    (fetchVideo worldMp4 5 (tweetWithVariants 77 [mp4Variant] none) initT).2.downloads = [] ∧
    (downloadTweet worldMp4 cfgFree 5 77 initT).exit = RunExit.uncaughtError ∧
    (downloadTweet worldMp4 cfgFree 5 77 initT).summary = none ∧
    (downloadTweet worldMp4 cfgFree 5 77 initT).st.downloads = [] ∧
    exitCode RunExit.uncaughtError = 1 := by
  decide

/-- Claim C3, counterexample.  In the thread A(300) ← B(200) ← C(100) with
`stop-at` equal to B's id (200), the boundary check `BigInt(id) <= stopAtTweetInt`
runs on B itself before B is fetched, and `200 <= 200` holds: the run does not
process two posts and never fetches B, refuting "fetches and fully handles
both A and B … reports processed = 2". -/
theorem c3_counterexample :
    ¬ (downloadTweet worldChain cfgStop200 10 300 initT).st.counter = 2 ∧
    ¬ 200 ∈ (downloadTweet worldChain cfgStop200 10 300 initT).st.fetched := by
  decide

/-- Claim C3, amended.  The stop boundary is checked against the next target
identifier before that identifier is fetched, terminating successfully when it
is numerically ≤ the boundary; hence in the thread A(300) ← B(200) ← C(100)
with `stop-at` = B's id, traversal fetches and fully handles only A, stops
before B (which itself satisfies the boundary check) is fetched, and reports
processed = 1. -/
theorem c3_amended : ∀ (w : World) (cfg : Config) (b fuel id : Nat) (st : TState),
    cfg.stopAt = StopAt.bigintVal b → id ≤ b →
    ((downloadTweet w cfg (fuel + 1) id st).exit = RunExit.reachedStop ∧
     (downloadTweet w cfg (fuel + 1) id st).st = st ∧
     (downloadTweet w cfg (fuel + 1) id st).summary
       = some (reportExit "Reached or passed the requested id." st)) ∧
    ((downloadTweet worldChain cfgStop200 10 300 initT).exit = RunExit.reachedStop ∧
     (downloadTweet worldChain cfgStop200 10 300 initT).st.counter = 1 ∧
     (downloadTweet worldChain cfgStop200 10 300 initT).st.fetched = [300] ∧
     (downloadTweet worldChain cfgStop200 10 300 initT).st.mediaChecked = [300]) := by
  intro w cfg b fuel id st hcfg hle
  refine ⟨?_, by decide⟩
  simp [downloadTweet, stopCheck, hcfg, hle]

/-- Claim C3, witness for the amended theorem: the boundary branch taken at a
concrete input. -/
theorem c3_witness :
    ((downloadTweet worldChain cfgStop200 (3 + 1) 200 initT).exit = RunExit.reachedStop ∧
     (downloadTweet worldChain cfgStop200 (3 + 1) 200 initT).st = initT ∧
     (downloadTweet worldChain cfgStop200 (3 + 1) 200 initT).summary
       = some (reportExit "Reached or passed the requested id." initT)) ∧
    ((downloadTweet worldChain cfgStop200 10 300 initT).exit = RunExit.reachedStop ∧
     (downloadTweet worldChain cfgStop200 10 300 initT).st.counter = 1 ∧
     (downloadTweet worldChain cfgStop200 10 300 initT).st.fetched = [300] ∧
     (downloadTweet worldChain cfgStop200 10 300 initT).st.mediaChecked = [300]) :=
  c3_amended worldChain cfgStop200 200 3 200 initT rfl (by decide)

/-- Claim C4, counterexample.  In the quote chain 100 → 50 → 25 (each earlier
post has no media and quotes the next), the run fetches all three: post 25 —
the quoted post of the quoted post — is fetched, refuting "quoted-of-quoted is
never fetched". -/
theorem c4_counterexample :
    (downloadTweet worldQuoteChain cfgFree 10 100 initT).st.fetched = [100, 50, 25] ∧
    25 ∈ (downloadTweet worldQuoteChain cfgFree 10 100 initT).st.fetched := by
  decide

/-- Claim C4, amended.  The recursion into quoted posts has no depth cap:
whenever a post with no media quotes a post that itself has no media and
quotes a third post, `fetchVideo` recurses again and the quoted-of-quoted
post is fetched. -/
theorem c4_amended : ∀ (w : World) (fuel : Nat) (st : TState) (b c : Nat) (ta tb tc : Tweet),
    ta.extended_entities = none → ta.quoted_status_id_str = some b →
    w.fetch b = FetchOutcome.ok tb →
    tb.extended_entities = none → tb.quoted_status_id_str = some c →
    w.fetch c = FetchOutcome.ok tc →
    tc.extended_entities = none → tc.quoted_status_id_str = none →
    c ∈ (fetchVideo w (fuel + 2) ta st).2.fetched := by
  intro w fuel st b c ta tb tc h1 h2 h3 h4 h5 h6 h7 h8
  simp [fetchVideo, getTweetJson, h1, h2, h3, h4, h5, h6, h7, h8]

/-- Claim C4, witness for the amended theorem in the concrete quote chain. -/
theorem c4_witness :
    25 ∈ (fetchVideo worldQuoteChain (0 + 2) (tweetNoMedia 100 (some 50) none) initT).2.fetched :=
  c4_amended worldQuoteChain 0 initT 50 25 (tweetNoMedia 100 (some 50) none)
    (tweetNoMedia 50 (some 25) none) (tweetNoMedia 25 none none)
    rfl rfl rfl rfl rfl rfl rfl rfl

/-- Claim C5.  When the HTTP layer returns a non-success status, `getTweetJson`
itself records `Download failed with a <status> error.` — a reason carrying the
numeric status code — in the ledger under the post's id before throwing; the
run then aborts through the fetch-failure exit with status 1, the printed
report already containing the new entry, with no retry and no further posts
(the counter is unchanged and the only fetch issued is this one). -/
theorem c5_fetch_failure : ∀ (w : World) (cfg : Config) (fuel id code : Nat) (st : TState),
    w.fetch id = FetchOutcome.httpError code →
    stopCheck id cfg.stopAt = false →
    (downloadTweet w cfg (fuel + 1) id st).exit = RunExit.fetchHttpFailure ∧
    exitCode (downloadTweet w cfg (fuel + 1) id st).exit = 1 ∧
    lookupL (downloadTweet w cfg (fuel + 1) id st).st.ledger id
      = some (s!"Download failed with a {code} error.") ∧
    (id, s!"Download failed with a {code} error.")
      ∈ (downloadTweet w cfg (fuel + 1) id st).st.ledger ∧
    (downloadTweet w cfg (fuel + 1) id st).st.counter = st.counter ∧
    (downloadTweet w cfg (fuel + 1) id st).st.fetched = st.fetched ++ [id] ∧
    (downloadTweet w cfg (fuel + 1) id st).summary
      = some (reportExit "Nothing left to download, exiting cleanly."
          (downloadTweet w cfg (fuel + 1) id st).st) := by
  intro w cfg fuel id code st hw hstop
  have hrun : downloadTweet w cfg (fuel + 1) id st =
      ⟨RunExit.fetchHttpFailure,
       { st with fetched := st.fetched ++ [id],
                 ledger := ledgerSet st.ledger id (s!"Download failed with a {code} error.") },
       some (reportExit "Nothing left to download, exiting cleanly."
         { st with fetched := st.fetched ++ [id],
                   ledger := ledgerSet st.ledger id
                     (s!"Download failed with a {code} error.") })⟩ := by
    simp [downloadTweet, getTweetJson, hw, hstop]
  rw [hrun]
  exact ⟨rfl, rfl, lookupL_set st.ledger id _, mem_ledgerSet st.ledger id _, rfl, rfl, rfl⟩

/-- Claim C5, witness: a 404 on the very first fetch. -/
theorem c5_witness :
    (downloadTweet worldHttp404 cfgFree (4 + 1) 123 initT).exit = RunExit.fetchHttpFailure ∧
    exitCode (downloadTweet worldHttp404 cfgFree (4 + 1) 123 initT).exit = 1 ∧
    lookupL (downloadTweet worldHttp404 cfgFree (4 + 1) 123 initT).st.ledger 123
      = some (s!"Download failed with a {(404 : Nat)} error.") ∧
    ((123 : Nat), s!"Download failed with a {(404 : Nat)} error.")
      ∈ (downloadTweet worldHttp404 cfgFree (4 + 1) 123 initT).st.ledger ∧
    (downloadTweet worldHttp404 cfgFree (4 + 1) 123 initT).st.counter = initT.counter ∧
    (downloadTweet worldHttp404 cfgFree (4 + 1) 123 initT).st.fetched = initT.fetched ++ [123] ∧
    (downloadTweet worldHttp404 cfgFree (4 + 1) 123 initT).summary
      = some (reportExit "Nothing left to download, exiting cleanly."
          (downloadTweet worldHttp404 cfgFree (4 + 1) 123 initT).st) :=
  c5_fetch_failure worldHttp404 cfgFree 4 123 404 initT rfl (by decide)

theorem downloadTweet_fetches_id (w : World) (cfg : Config) (fuel id : Nat) (st : TState)
    (hstop : stopCheck id cfg.stopAt = false) :
    ∃ l, (downloadTweet w cfg (fuel + 1) id st).st.fetched = st.fetched ++ [id] ++ l := by
  have hf1 := getTweetJson_fetched w id st
  rcases hg : getTweetJson w id st with ⟨fs, st1⟩
  rw [hg] at hf1
  simp only at hf1
  cases fs with
  | exited e sm => exact ⟨[], by simp [downloadTweet, hstop, hg, hf1]⟩
  | ok t =>
    obtain ⟨l2, hl2⟩ := fetchVideo_fetched w fuel t st1
    rcases hfv : fetchVideo w fuel t st1 with ⟨v, st2⟩
    rw [hfv] at hl2
    simp only at hl2
    cases v with
    | exited e sm =>
      refine ⟨l2, ?_⟩
      simp [downloadTweet, hstop, hg, hfv]
      rw [hl2, hf1]
      simp
    | done t2 =>
      obtain ⟨_, _, hfn⟩ := findNextTweet_counter cfg t2 st2
      rcases hn : findNextTweet cfg t2 st2 with ⟨ns, st3⟩
      rw [hn] at hfn
      simp only at hfn
      cases ns with
      | exited e sm =>
        refine ⟨l2, ?_⟩
        simp [downloadTweet, hstop, hg, hfv, hn]
        rw [hfn, hl2, hf1]
        simp
      | next p =>
        obtain ⟨l4, hl4⟩ := downloadTweet_fetched w cfg fuel p st3
        refine ⟨l2 ++ l4, ?_⟩
        simp [downloadTweet, hstop, hg, hfv, hn]
        rw [hl4, hfn, hl2, hf1]
        simp

/-- Claim C8, counterexample.  Post 900 has no media and quotes post 800; both
are fetched and media-checked (fully evaluated), yet the processed-count ends
at 1, not 2: the quoted-post lookup goes through `fetchVideo` alone and never
reaches the `tweetCounter++` in `findNextTweet`, refuting "including posts
reached via quoted-post lookup". -/
theorem c8_counterexample :
    (downloadTweet worldQuoted cfgFree 10 900 initT).st.fetched = [900, 800] ∧
    (downloadTweet worldQuoted cfgFree 10 900 initT).st.mediaChecked = [900, 800] ∧
    (downloadTweet worldQuoted cfgFree 10 900 initT).st.counter = 1 := by
  decide

/-- Claim C8, amended.  The processed-count increases by exactly one per
top-level chain post that completes fetch and media check (the increments are
exactly the `chainEvaluated` records, made at the single `tweetCounter++` site
in `findNextTweet`); posts reached via quoted-post lookup are fetched and
media-checked but do not increment it, and a post whose fetch fails does not
increment it. -/
theorem c8_amended :
    (∀ (w : World) (cfg : Config) (fuel id : Nat) (st : TState),
      (downloadTweet w cfg fuel id st).st.counter + st.chainEvaluated.length
        = st.counter + (downloadTweet w cfg fuel id st).st.chainEvaluated.length) ∧
    (downloadTweet worldQuoted cfgFree 10 900 initT).st.chainEvaluated = [900] ∧
    (downloadTweet worldQuoted cfgFree 10 900 initT).st.counter = 1 ∧
    (downloadTweet worldHttp404 cfgFree 10 123 initT).st.counter = 0 ∧
    (downloadTweet worldHttp404 cfgFree 10 123 initT).st.fetched = [123] :=
  ⟨downloadTweet_counter, by decide, by decide, by decide, by decide⟩

/-- Claim C9, counterexample.  A transport-level fetch failure terminates the
run (exit status 1) through `downloadTweet`'s generic catch — the promise
rejected inside `getTweetJson`'s catch handler before `reportExit` ran — so
this termination path prints no final summary at all, refuting "every
termination path … prints a final summary". -/
theorem c9_counterexample :
    (downloadTweet worldTransport cfgFree 5 7 initT).exit = RunExit.uncaughtError ∧
    exitCode (downloadTweet worldTransport cfgFree 5 7 initT).exit = 1 ∧
    (downloadTweet worldTransport cfgFree 5 7 initT).summary = none := by
  decide

/-- Claim C9, amended.  Every clean termination (boundary reached, limit
reached, thread exhausted) and every HTTP-status fetch failure prints the
final summary produced by `reportExit` from the final run state — the
termination message, the processed count, and the itemized `"<id> (<reason>)"
listing rendered only when the ledger is non-empty — the reporter only reading
that state; terminations through the controller's generic catch (transport
failures, unexpected exceptions) exit with status 1 and print no summary. -/
theorem c9_amended : ∀ (w : World) (cfg : Config) (fuel id : Nat) (st : TState),
    (cleanOrHttp (downloadTweet w cfg fuel id st).exit = true →
      ∃ m, (downloadTweet w cfg fuel id st).summary
        = some (reportExit m (downloadTweet w cfg fuel id st).st)) ∧
    ((downloadTweet w cfg fuel id st).exit = RunExit.uncaughtError →
      (downloadTweet w cfg fuel id st).summary = none) :=
  fun w cfg fuel id st => downloadTweet_report w cfg fuel id st

/-- Claim C9, witness: a clean termination of the concrete boundary run
carries a `reportExit` summary of its final state. -/
theorem c9_witness :
    ∃ m, (downloadTweet worldChain cfgStop200 10 300 initT).summary
      = some (reportExit m (downloadTweet worldChain cfgStop200 10 300 initT).st) :=
  (c9_amended worldChain cfgStop200 10 300 initT).1 (by decide)

/-- Claim C10.  With no `stop-at` configured the boundary variable is the
boolean `false` (`mkStopAt none`), and the pre-fetch comparison still runs
against it, JavaScript coercing `false` to zero: every positive identifier
fails the check and the run proceeds to fetch it, while the identifier 0
satisfies `0 <= 0` and terminates at step 1 with "Reached or passed the
requested id." before any fetch occurs, even though no boundary was
requested. -/
theorem c10_false_boundary : ∀ (w : World) (cfg : Config) (fuel id : Nat) (st : TState),
    cfg.stopAt = StopAt.jsFalse → 0 < id →
    (mkStopAt none = StopAt.jsFalse ∧
     stopCheck id StopAt.jsFalse = false ∧
     id ∈ (downloadTweet w cfg (fuel + 1) id st).st.fetched) ∧
    ((downloadTweet w cfg (fuel + 1) 0 st).exit = RunExit.reachedStop ∧
     (downloadTweet w cfg (fuel + 1) 0 st).st = st ∧
     (downloadTweet w cfg (fuel + 1) 0 st).summary
       = some (reportExit "Reached or passed the requested id." st)) := by
  intro w cfg fuel id st hcfg hpos
  have hsc : stopCheck id StopAt.jsFalse = false := by
    simp [stopCheck]
    omega
  constructor
  · refine ⟨rfl, hsc, ?_⟩
    obtain ⟨l, hl⟩ := downloadTweet_fetches_id w cfg fuel id st (by rw [hcfg]; exact hsc)
    rw [hl]
    simp
  · have h0 : stopCheck 0 cfg.stopAt = true := by simp [stopCheck, hcfg]
    refine ⟨?_, ?_, ?_⟩ <;> simp [downloadTweet, h0]

/-- Claim C10, witness at a concrete world: id 300 is fetched under the
`false` boundary, and id 0 stops before any fetch. -/
theorem c10_witness :
    (mkStopAt none = StopAt.jsFalse ∧
     stopCheck 300 StopAt.jsFalse = false ∧
     300 ∈ (downloadTweet worldChain cfgFree (9 + 1) 300 initT).st.fetched) ∧
    ((downloadTweet worldChain cfgFree (9 + 1) 0 initT).exit = RunExit.reachedStop ∧
     (downloadTweet worldChain cfgFree (9 + 1) 0 initT).st = initT ∧
     (downloadTweet worldChain cfgFree (9 + 1) 0 initT).summary
       = some (reportExit "Reached or passed the requested id." initT)) :=
  c10_false_boundary worldChain cfgFree 9 300 initT rfl (by decide)
